import Mathlib

/-!
Verification of the STIMPL interpreter (`src/stimpl/runtime.py`): a shallow
embedding of the interpreter state (`State`, `EmptyState`) and of the
`evaluate` function, together with theorems settling the specified
properties of the evaluator.

Modelling conventions:
* Python floats are modelled as exact rationals; every float arithmetic
  exercised here (division with small operands) is exact in IEEE 754 as well.
* `evaluate` is fuelled: fuel `0` yields `Outcome.timeout`; every other
  outcome is independent of any sufficiently large fuel by construction.
* `print` output is not modelled; the `Print` case returns the evaluated
  value, type and state unchanged, exactly as the source does.
-/

namespace Stimpl

/-- Modelled from the spec: the closed set of type markers
{Unit, Integer, FloatingPoint, String, Boolean} (`stimpl/types.py` is an
external collaborator; the spec pins it to an enumerated, equality-comparable
set of tags). -/
inductive Ty : Type
  | tUnit : Ty
  | tInt : Ty
  | tFloat : Ty
  | tStr : Ty
  | tBool : Ty
deriving DecidableEq

/-- Raw Python runtime values flowing through the interpreter: the payloads
paired with a `Ty` tag in every evaluation result. `vNone` is Python's `None`
(the value of the `Ren` unit literal); floats are modelled as exact
rationals. -/
inductive Value : Type
  | vNone : Value
  | vInt (n : ℤ) : Value
  | vFloat (q : ℚ) : Value
  | vStr (s : String) : Value
  | vBool (b : Bool) : Value
deriving DecidableEq

/-- Modelled from the spec: the three fatal error kinds of
`stimpl/errors.py` (an external collaborator). `hostError` is an extra
sentinel for a host-level (Python) exception on value/tag combinations that
the interpreter's own checks make unreachable; no theorem below ever
produces it from a coherent evaluation. -/
inductive Err : Type
  | syntaxError : Err
  | typeError : Err
  | mathError : Err
  | hostError : Err
deriving DecidableEq

/-- The chained interpreter state: `emptyState` is `EmptyState()`, and
`frame` is one `State(variable_name, variable_value, variable_type,
next_state)` node of `runtime.py`. -/
inductive State : Type
  | emptyState : State
  | frame (variable_name : String) (variable_value : Value)
      (variable_type : Ty) (next_state : State) : State
deriving DecidableEq

/-- `State.set_value`: returns a new frame wrapping the receiver as tail;
the receiver is not altered. -/
def State.set_value (s : State) (variable_name : String)
    (variable_value : Value) (variable_type : Ty) : State :=
  State.frame variable_name variable_value variable_type s

/-- `State.get_value` / `EmptyState.get_value`: first-match search from the
front of the chain; `none` models the Python `None` returned by
`EmptyState.get_value`. -/
def State.get_value : State → String → Option (Value × Ty)
  | .emptyState, _ => none
  | .frame n v t next, variable_name =>
      if n = variable_name then some (v, t) else next.get_value variable_name

/-- All bindings of the chain, front (most recent) first. Used to state
that extension preserves the entire history of bindings. -/
def State.bindings : State → List (String × Value × Ty)
  | .emptyState => []
  | .frame n v t next => (n, v, t) :: next.bindings

/-- The expression AST (`stimpl/expression.py`, an external collaborator;
the spec pins the closed variant set). `Assign` only ever uses the
`variable_name` of its variable node, so that name is stored directly. -/
inductive Expr : Type
  | ren : Expr
  | intLiteral (literal : ℤ) : Expr
  | floatingPointLiteral (literal : ℚ) : Expr
  | stringLiteral (literal : String) : Expr
  | booleanLiteral (literal : Bool) : Expr
  | printExpr (to_print : Expr) : Expr
  | sequence (exprs : List Expr) : Expr
  | program (exprs : List Expr) : Expr
  | var (variable_name : String) : Expr
  | assign (variable_name : String) (value : Expr) : Expr
  | add (left right : Expr) : Expr
  | subtract (left right : Expr) : Expr
  | multiply (left right : Expr) : Expr
  | divide (left right : Expr) : Expr
  | andE (left right : Expr) : Expr
  | orE (left right : Expr) : Expr
  | notE (expr : Expr) : Expr
  | ifE (condition true_branch false_branch : Expr) : Expr
  | lt (left right : Expr) : Expr
  | lte (left right : Expr) : Expr
  | gt (left right : Expr) : Expr
  | gte (left right : Expr) : Expr
  | eq (left right : Expr) : Expr
  | ne (left right : Expr) : Expr
  | whileE (condition body : Expr) : Expr

/-- Python truthiness (`bool(x)`): used by the host `while` statement and by
`not`/`and`/`or`. -/
def pyTruthy : Value → Bool
  | .vNone => false
  | .vInt n => decide (n ≠ 0)
  | .vFloat q => decide (q ≠ 0)
  | .vStr s => decide (s ≠ "")
  | .vBool b => b

/-- The numeric view of a value under Python's numeric tower: `bool` is a
subtype of `int`, and `int`/`float` compare by exact value. -/
def Value.numView : Value → Option ℚ
  | .vInt n => some (n : ℚ)
  | .vFloat q => some q
  | .vBool b => some (if b then 1 else 0)
  | _ => none

/-- The int-kind view: Python values of type `int` (including `bool`). -/
def Value.intView : Value → Option ℤ
  | .vInt n => some n
  | .vBool b => some (if b then 1 else 0)
  | _ => none

/-- Python `==`: numeric values (bool/int/float) compare by numeric value
(so `False == 0` and `True == 1`), strings by content, `None` only to
`None`; values of unrelated types are unequal rather than an error. -/
def pyEq (a b : Value) : Bool :=
  match a.numView, b.numView with
  | some x, some y => decide (x = y)
  | _, _ =>
    match a, b with
    | .vStr x, .vStr y => decide (x = y)
    | .vNone, .vNone => true
    | _, _ => false

/-- Python `<`: numeric values compare numerically, strings
lexicographically; anything else is a host `TypeError` (`none`). -/
def pyLt (a b : Value) : Option Bool :=
  match a.numView, b.numView with
  | some x, some y => some (decide (x < y))
  | _, _ =>
    match a, b with
    | .vStr x, .vStr y => some (decide (x < y))
    | _, _ => none

/-- Python `<=`. For the total orders involved, `x <= y` is `¬ (y < x)`. -/
def pyLe (a b : Value) : Option Bool :=
  match a.numView, b.numView with
  | some x, some y => some (decide (x ≤ y))
  | _, _ =>
    match a, b with
    | .vStr x, .vStr y => some (!decide (y < x))
    | _, _ => none

/-- Python `>`. -/
def pyGt (a b : Value) : Option Bool :=
  match a.numView, b.numView with
  | some x, some y => some (decide (y < x))
  | _, _ =>
    match a, b with
    | .vStr x, .vStr y => some (decide (y < x))
    | _, _ => none

/-- Python `>=`. -/
def pyGe (a b : Value) : Option Bool :=
  match a.numView, b.numView with
  | some x, some y => some (decide (y ≤ x))
  | _, _ =>
    match a, b with
    | .vStr x, .vStr y => some (!decide (x < y))
    | _, _ => none

/-- Python `+`: int-kind plus int-kind is an int, any float makes a float,
strings concatenate; anything else is a host `TypeError`. (String
repetition does not arise: `+` never mixes strings with numbers.) -/
def pyAdd (a b : Value) : Option Value :=
  match a.intView, b.intView with
  | some x, some y => some (.vInt (x + y))
  | _, _ =>
    match a.numView, b.numView with
    | some x, some y => some (.vFloat (x + y))
    | _, _ =>
      match a, b with
      | .vStr x, .vStr y => some (.vStr (x ++ y))
      | _, _ => none

/-- Python binary `-`. -/
def pySub (a b : Value) : Option Value :=
  match a.intView, b.intView with
  | some x, some y => some (.vInt (x - y))
  | _, _ =>
    match a.numView, b.numView with
    | some x, some y => some (.vFloat (x - y))
    | _, _ => none

/-- Python binary `*`. (String repetition `str * int` is omitted: the
interpreter's type-equality check precedes the multiplication, so mixed
string/number operands never reach it.) -/
def pyMul (a b : Value) : Option Value :=
  match a.intView, b.intView with
  | some x, some y => some (.vInt (x * y))
  | _, _ =>
    match a.numView, b.numView with
    | some x, some y => some (.vFloat (x * y))
    | _, _ => none

/-- Python `/` (true division): always a float; division by zero is a host
`ZeroDivisionError` (`none`), unreachable behind the interpreter's own
zero check. -/
def pyTrueDiv (a b : Value) : Option Value :=
  match a.numView, b.numView with
  | some x, some y => if y = 0 then none else some (.vFloat (x / y))
  | _, _ => none

/-- Python `//` (floor division): int-kind operands give the floored
integer quotient (`Int.fdiv`), any float makes a floored float. -/
def pyFloorDiv (a b : Value) : Option Value :=
  match a.intView, b.intView with
  | some x, some y => if y = 0 then none else some (.vInt (Int.fdiv x y))
  | _, _ =>
    match a.numView, b.numView with
    | some x, some y =>
        if y = 0 then none else some (.vFloat ((⌊x / y⌋ : ℤ) : ℚ))
    | _, _ => none

/-- The outcome of one fuelled evaluation: a result triple, a raised
interpreter error, or fuel exhaustion. -/
inductive Outcome : Type
  | ok (value : Value) (type : Ty) (state : State) : Outcome
  | err (e : Err) : Outcome
  | timeout : Outcome
deriving DecidableEq

/-- Sequencing of evaluations: errors and fuel exhaustion abort the whole
chain, exactly as a raised Python exception does. -/
def Outcome.bind : Outcome → (Value → Ty → State → Outcome) → Outcome
  | .ok v t s, f => f v t s
  | .err e, _ => .err e
  | .timeout, _ => .timeout

/-- The `Sequence`/`Program` loop: fold the evaluator over the expression
list, threading the state, starting from `(None, Unit, state)` and keeping
the last triple. -/
def evalSeqAux (ev : Expr → State → Outcome) :
    List Expr → Value → Ty → State → Outcome
  | [], v, t, s => .ok v t s
  | e :: es, _, _, s => (ev e s).bind fun v t s' => evalSeqAux ev es v t s'

/-- The host `while condition_value:` loop of the `While` case. The loop
guard is Python truthiness of the last condition value; the re-evaluated
condition's type is bound but never re-checked, exactly as in the source.
On exit the `While` case returns `(False, Boolean, state)`. The `Nat`
argument bounds the number of iterations (fuel). -/
def whileLoopAux (ev : Expr → State → Outcome) :
    Nat → Expr → Expr → Value → State → Outcome
  | 0, _, _, _, _ => .timeout
  | n + 1, condition, body, condition_value, s =>
    if pyTruthy condition_value then
      (ev body s).bind fun _ _ s1 =>
        (ev condition s1).bind fun cv2 _ s2 =>
          whileLoopAux ev n condition body cv2 s2
    else
      .ok (.vBool false) .tBool s

/-- The evaluator of `runtime.py`, one case per expression kind, fuelled by
the first argument (recursion depth and `While` iteration count). -/
def evaluate : Nat → Expr → State → Outcome
  | 0, _, _ => .timeout
  | fuel + 1, expr, state =>
    match expr with
    | .ren => .ok .vNone .tUnit state
    | .intLiteral l => .ok (.vInt l) .tInt state
    | .floatingPointLiteral l => .ok (.vFloat l) .tFloat state
    | .stringLiteral l => .ok (.vStr l) .tStr state
    | .booleanLiteral l => .ok (.vBool l) .tBool state
    | .printExpr to_print =>
      (evaluate fuel to_print state).bind fun v t s => .ok v t s
    | .sequence exprs | .program exprs =>
      evalSeqAux (evaluate fuel) exprs .vNone .tUnit state
    | .var variable_name =>
      match state.get_value variable_name with
      | none => .err .syntaxError
      | some (v, t) => .ok v t state
    | .assign variable_name value =>
      (evaluate fuel value state).bind fun value_result value_type new_state =>
        match new_state.get_value variable_name with
        | some (_, variable_type) =>
          if value_type ≠ variable_type then .err .typeError
          else .ok value_result value_type
            (new_state.set_value variable_name value_result value_type)
        | none => .ok value_result value_type
            (new_state.set_value variable_name value_result value_type)
    | .add left right =>
      (evaluate fuel left state).bind fun left_result left_type s1 =>
        (evaluate fuel right s1).bind fun right_result right_type s2 =>
          if left_type ≠ right_type then .err .typeError
          else
            match left_type with
            | .tInt | .tStr | .tFloat =>
              match pyAdd left_result right_result with
              | some r => .ok r left_type s2
              | none => .err .hostError
            | _ => .err .typeError
    | .subtract left right =>
      (evaluate fuel left state).bind fun left_result left_type s1 =>
        (evaluate fuel right s1).bind fun right_result right_type s2 =>
          if left_type ≠ right_type then .err .typeError
          else
            match left_type with
            | .tInt | .tFloat =>
              match pySub left_result right_result with
              | some r => .ok r left_type s2
              | none => .err .hostError
            | _ => .err .typeError
    | .multiply left right =>
      (evaluate fuel left state).bind fun left_result left_type s1 =>
        (evaluate fuel right s1).bind fun right_result right_type s2 =>
          if left_type ≠ right_type then .err .typeError
          else
            match left_type with
            | .tInt | .tFloat =>
              match pyMul left_result right_result with
              | some r => .ok r left_type s2
              | none => .err .hostError
            | _ => .err .typeError
    | .divide left right =>
      (evaluate fuel left state).bind fun left_result left_type s1 =>
        (evaluate fuel right s1).bind fun right_result right_type s2 =>
          if pyEq right_result (.vInt 0) then .err .mathError
          else if left_type ≠ right_type then .err .typeError
          else
            match left_type with
            | .tFloat =>
              match pyTrueDiv left_result right_result with
              | some r => .ok r left_type s2
              | none => .err .hostError
            | .tInt =>
              match pyFloorDiv left_result right_result with
              | some r => .ok r left_type s2
              | none => .err .hostError
            | _ => .err .typeError
    | .andE left right =>
      (evaluate fuel left state).bind fun left_value left_type s1 =>
        (evaluate fuel right s1).bind fun right_value right_type s2 =>
          if left_type ≠ right_type then .err .typeError
          else
            match left_type with
            | .tBool =>
              .ok (if pyTruthy left_value then right_value else left_value)
                left_type s2
            | _ => .err .typeError
    | .orE left right =>
      (evaluate fuel left state).bind fun left_value left_type s1 =>
        (evaluate fuel right s1).bind fun right_value right_type s2 =>
          if left_type ≠ right_type then .err .typeError
          else
            match left_type with
            | .tBool =>
              .ok (if pyTruthy left_value then left_value else right_value)
                left_type s2
            | _ => .err .typeError
    | .notE expr =>
      (evaluate fuel expr state).bind fun new_value new_type new_state =>
        match new_type with
        | .tBool => .ok (.vBool (!pyTruthy new_value)) new_type new_state
        | _ => .err .typeError
    | .ifE condition true_branch false_branch =>
      (evaluate fuel condition state).bind fun condition_value condition_type s1 =>
        match condition_type with
        | .tBool =>
          (evaluate fuel true_branch s1).bind fun true_value true_type s2 =>
            (evaluate fuel false_branch s2).bind fun false_value false_type s3 =>
              if pyEq condition_value (.vBool true) then
                .ok true_value true_type s3
              else
                .ok false_value false_type s3
        | _ => .err .typeError
    | .lt left right =>
      (evaluate fuel left state).bind fun left_value left_type s1 =>
        (evaluate fuel right s1).bind fun right_value right_type s2 =>
          if left_type ≠ right_type then .err .typeError
          else
            match left_type with
            | .tInt | .tBool | .tStr | .tFloat =>
              match pyLt left_value right_value with
              | some b => .ok (.vBool b) .tBool s2
              | none => .err .hostError
            | .tUnit => .ok (.vBool false) .tBool s2
    | .lte left right =>
      (evaluate fuel left state).bind fun left_value left_type s1 =>
        (evaluate fuel right s1).bind fun right_value right_type s2 =>
          if left_type ≠ right_type then .err .typeError
          else
            match left_type with
            | .tInt | .tBool | .tStr | .tFloat =>
              match pyLe left_value right_value with
              | some b => .ok (.vBool b) .tBool s2
              | none => .err .hostError
            | .tUnit => .ok (.vBool true) .tBool s2
    | .gt left right =>
      (evaluate fuel left state).bind fun left_value left_type s1 =>
        (evaluate fuel right s1).bind fun right_value right_type s2 =>
          if left_type ≠ right_type then .err .typeError
          else
            match left_type with
            | .tInt | .tBool | .tStr | .tFloat =>
              match pyGt left_value right_value with
              | some b => .ok (.vBool b) .tBool s2
              | none => .err .hostError
            | .tUnit => .ok (.vBool false) .tBool s2
    | .gte left right =>
      (evaluate fuel left state).bind fun left_value left_type s1 =>
        (evaluate fuel right s1).bind fun right_value right_type s2 =>
          if left_type ≠ right_type then .err .typeError
          else
            match left_type with
            | .tInt | .tBool | .tStr | .tFloat =>
              match pyGe left_value right_value with
              | some b => .ok (.vBool b) .tBool s2
              | none => .err .hostError
            | .tUnit => .ok (.vBool true) .tBool s2
    | .eq left right =>
      (evaluate fuel left state).bind fun left_value left_type s1 =>
        (evaluate fuel right s1).bind fun right_value right_type s2 =>
          if left_type ≠ right_type then .err .typeError
          else
            match left_type with
            | .tInt | .tBool | .tStr | .tFloat =>
              .ok (.vBool (pyEq left_value right_value)) .tBool s2
            | .tUnit => .ok (.vBool true) .tBool s2
    | .ne left right =>
      (evaluate fuel left state).bind fun left_value left_type s1 =>
        (evaluate fuel right s1).bind fun right_value right_type s2 =>
          if left_type ≠ right_type then .err .typeError
          else
            match left_type with
            | .tInt | .tBool | .tStr | .tFloat =>
              .ok (.vBool (!pyEq left_value right_value)) .tBool s2
            | .tUnit => .ok (.vBool false) .tBool s2
    | .whileE condition body =>
      (evaluate fuel condition state).bind fun condition_value condition_type new_state =>
        match condition_type with
        | .tBool =>
          whileLoopAux (evaluate fuel) fuel condition body condition_value new_state
        | _ => .err .typeError

/-- `run_stimpl`: evaluate a program against the empty state. -/
def run_stimpl (fuel : Nat) (program : Expr) : Outcome :=
  evaluate fuel program .emptyState

/-- The twelve binary operator node kinds, used to state the shared
left-evaluate/right-evaluate template once for all of them. -/
inductive BinOp : Type
  | add : BinOp
  | subtract : BinOp
  | multiply : BinOp
  | divide : BinOp
  | andOp : BinOp
  | orOp : BinOp
  | ltOp : BinOp
  | lteOp : BinOp
  | gtOp : BinOp
  | gteOp : BinOp
  | eqOp : BinOp
  | neOp : BinOp

/-- The AST node built from a binary operator kind and two operands. -/
def binExpr : BinOp → Expr → Expr → Expr
  | .add, l, r => .add l r
  | .subtract, l, r => .subtract l r
  | .multiply, l, r => .multiply l r
  | .divide, l, r => .divide l r
  | .andOp, l, r => .andE l r
  | .orOp, l, r => .orE l r
  | .ltOp, l, r => .lt l r
  | .lteOp, l, r => .lte l r
  | .gtOp, l, r => .gt l r
  | .gteOp, l, r => .gte l r
  | .eqOp, l, r => .eq l r
  | .neOp, l, r => .ne l r

/-- The per-operator tail of each binary case of `evaluate`: everything
that happens after both operands have been evaluated (type-mismatch check,
type dispatch, computation), as a function of both results and the state
threaded out of the right operand. -/
def binCompute : BinOp → Value → Ty → Value → Ty → State → Outcome
  | .add, left_result, left_type, right_result, right_type, s2 =>
    if left_type ≠ right_type then .err .typeError
    else
      match left_type with
      | .tInt | .tStr | .tFloat =>
        match pyAdd left_result right_result with
        | some r => .ok r left_type s2
        | none => .err .hostError
      | _ => .err .typeError
  | .subtract, left_result, left_type, right_result, right_type, s2 =>
    if left_type ≠ right_type then .err .typeError
    else
      match left_type with
      | .tInt | .tFloat =>
        match pySub left_result right_result with
        | some r => .ok r left_type s2
        | none => .err .hostError
      | _ => .err .typeError
  | .multiply, left_result, left_type, right_result, right_type, s2 =>
    if left_type ≠ right_type then .err .typeError
    else
      match left_type with
      | .tInt | .tFloat =>
        match pyMul left_result right_result with
        | some r => .ok r left_type s2
        | none => .err .hostError
      | _ => .err .typeError
  | .divide, left_result, left_type, right_result, right_type, s2 =>
    if pyEq right_result (.vInt 0) then .err .mathError
    else if left_type ≠ right_type then .err .typeError
    else
      match left_type with
      | .tFloat =>
        match pyTrueDiv left_result right_result with
        | some r => .ok r left_type s2
        | none => .err .hostError
      | .tInt =>
        match pyFloorDiv left_result right_result with
        | some r => .ok r left_type s2
        | none => .err .hostError
      | _ => .err .typeError
  | .andOp, left_value, left_type, right_value, right_type, s2 =>
    if left_type ≠ right_type then .err .typeError
    else
      match left_type with
      | .tBool =>
        .ok (if pyTruthy left_value then right_value else left_value)
          left_type s2
      | _ => .err .typeError
  | .orOp, left_value, left_type, right_value, right_type, s2 =>
    if left_type ≠ right_type then .err .typeError
    else
      match left_type with
      | .tBool =>
        .ok (if pyTruthy left_value then left_value else right_value)
          left_type s2
      | _ => .err .typeError
  | .ltOp, left_value, left_type, right_value, right_type, s2 =>
    if left_type ≠ right_type then .err .typeError
    else
      match left_type with
      | .tInt | .tBool | .tStr | .tFloat =>
        match pyLt left_value right_value with
        | some b => .ok (.vBool b) .tBool s2
        | none => .err .hostError
      | .tUnit => .ok (.vBool false) .tBool s2
  | .lteOp, left_value, left_type, right_value, right_type, s2 =>
    if left_type ≠ right_type then .err .typeError
    else
      match left_type with
      | .tInt | .tBool | .tStr | .tFloat =>
        match pyLe left_value right_value with
        | some b => .ok (.vBool b) .tBool s2
        | none => .err .hostError
      | .tUnit => .ok (.vBool true) .tBool s2
  | .gtOp, left_value, left_type, right_value, right_type, s2 =>
    if left_type ≠ right_type then .err .typeError
    else
      match left_type with
      | .tInt | .tBool | .tStr | .tFloat =>
        match pyGt left_value right_value with
        | some b => .ok (.vBool b) .tBool s2
        | none => .err .hostError
      | .tUnit => .ok (.vBool false) .tBool s2
  | .gteOp, left_value, left_type, right_value, right_type, s2 =>
    if left_type ≠ right_type then .err .typeError
    else
      match left_type with
      | .tInt | .tBool | .tStr | .tFloat =>
        match pyGe left_value right_value with
        | some b => .ok (.vBool b) .tBool s2
        | none => .err .hostError
      | .tUnit => .ok (.vBool true) .tBool s2
  | .eqOp, left_value, left_type, right_value, right_type, s2 =>
    if left_type ≠ right_type then .err .typeError
    else
      match left_type with
      | .tInt | .tBool | .tStr | .tFloat =>
        .ok (.vBool (pyEq left_value right_value)) .tBool s2
      | .tUnit => .ok (.vBool true) .tBool s2
  | .neOp, left_value, left_type, right_value, right_type, s2 =>
    if left_type ≠ right_type then .err .typeError
    else
      match left_type with
      | .tInt | .tBool | .tStr | .tFloat =>
        .ok (.vBool (!pyEq left_value right_value)) .tBool s2
      | .tUnit => .ok (.vBool false) .tBool s2

/-- Repeated assignment to one name, modelled directly on
`State.set_value`: each list element adds one binding for `variable_name`
in front of the chain built so far. -/
def assignChain (s : State) (variable_name : String) :
    List (Value × Ty) → State
  | [] => s
  | (v, t) :: rest => assignChain (s.set_value variable_name v t) variable_name rest

/-- Negating both operands leaves Python floor division unchanged. -/
theorem fdiv_neg_neg (a b : ℤ) : Int.fdiv (-a) (-b) = Int.fdiv a b := by
  rcases eq_or_ne b 0 with rfl | hb
  · simp
  · rcases a with (_ | m) | m <;> rcases b with (_ | n) | n <;>
      first
      | rfl
      | exact absurd rfl hb

/-- `Int.fdiv` (Python `//`) is the floor of the exact rational quotient,
for negative operands as well. -/
theorem fdiv_eq_floor_rat (a b : ℤ) (hb : b ≠ 0) :
    Int.fdiv a b = ⌊(a : ℚ) / (b : ℚ)⌋ := by
  have hpos : ∀ (p q : ℤ), 0 < q → Int.fdiv p q = ⌊(p : ℚ) / (q : ℚ)⌋ := by
    intro p q hq
    have h1 : Int.fdiv p q = p / q := Int.fdiv_eq_ediv p hq.le
    have h2 : ⌊((p : ℚ) / (q.toNat : ℚ))⌋ = p / (q.toNat : ℤ) :=
      Rat.floor_intCast_div_natCast p q.toNat
    have h4 : (q.toNat : ℤ) = q := Int.toNat_of_nonneg hq.le
    rw [h1, ← h4, ← h2]
    congr 1
  rcases lt_trichotomy b 0 with hneg | h0 | hp
  · have h5 : (a : ℚ) / (b : ℚ) = ((-a : ℤ) : ℚ) / ((-b : ℤ) : ℚ) := by
      push_cast
      rw [neg_div_neg_eq]
    rw [← fdiv_neg_neg a b, h5]
    exact hpos (-a) (-b) (by omega)
  · exact absurd h0 hb
  · exact hpos a b hp

/-- C1: in every `Divide` case, once both operands are evaluated, a right
operand whose value equals zero (Python `==`) makes evaluation fail with a
Math error, with no hypothesis on either operand's type: the zero check
precedes the operand-type-mismatch check and the type dispatch, so a zero
divisor raises a Math error even when the two operand types differ. -/
theorem divide_zero_check_precedes_type_checks (fuel : Nat) (l r : Expr)
    (s : State) (lv : Value) (lt' : Ty) (s1 : State) (rv : Value) (rt : Ty)
    (s2 : State)
    (hl : evaluate fuel l s = .ok lv lt' s1)
    (hr : evaluate fuel r s1 = .ok rv rt s2)
    (hz : pyEq rv (.vInt 0) = true) :
    evaluate (fuel + 1) (.divide l r) s = .err .mathError := by
  simp only [evaluate, hl, Outcome.bind, hr, hz]
  rfl

/-- Witness for C1: dividing the Integer 1 by the FloatingPoint 0.0 — the
operand types differ, yet the result is a Math error, not a Type error. -/
theorem divide_zero_check_precedes_type_checks_witness :
    evaluate 2 (.divide (.intLiteral 1) (.floatingPointLiteral 0)) .emptyState
      = .err .mathError :=
  divide_zero_check_precedes_type_checks 1 _ _ _ _ _ _ _ _ _ rfl rfl (by decide)

/-- C2 counterexample: a `While` whose condition evaluates to Boolean true
initially but to Integer 0 after the first body iteration. The claim says
this must fail with a Type error; instead the whole program evaluates
normally to `(false, Boolean)` (the re-evaluated Integer 0 is merely
falsy, so the loop exits), as the second conjunct shows by evaluating the
condition in the post-body state. -/
theorem while_nonbool_recheck_cex :
    evaluate 20 (.sequence [.assign "x" (.intLiteral 0),
        .whileE (.ifE (.eq (.var "x") (.intLiteral 0))
            (.booleanLiteral true) (.intLiteral 0))
          (.assign "x" (.intLiteral 1))]) .emptyState
      = .ok (.vBool false) .tBool
          (.frame "x" (.vInt 1) .tInt (.frame "x" (.vInt 0) .tInt .emptyState))
    ∧ evaluate 18 (.ifE (.eq (.var "x") (.intLiteral 0))
          (.booleanLiteral true) (.intLiteral 0))
        (.frame "x" (.vInt 1) .tInt (.frame "x" (.vInt 0) .tInt .emptyState))
      = .ok (.vInt 0) .tInt
          (.frame "x" (.vInt 1) .tInt (.frame "x" (.vInt 0) .tInt .emptyState)) :=
  ⟨by decide, by decide⟩

/-- C2 (amended): only the initial evaluation of a `While` condition is
type-checked — a non-Boolean initial condition type fails with a Type
error; the condition values produced by re-evaluations after body
iterations are not type-checked, and the loop continues or stops solely by
the truthiness of the re-evaluated value, whatever its type. -/
theorem while_condition_checked_only_initially :
    (∀ (fuel : Nat) (c b : Expr) (s : State) (cv : Value) (ct : Ty) (s1 : State),
        evaluate fuel c s = .ok cv ct s1 → ct ≠ .tBool →
        evaluate (fuel + 1) (.whileE c b) s = .err .typeError)
    ∧ (∀ (ev : Expr → State → Outcome) (n : Nat) (c b : Expr) (cv : Value) (s : State),
        pyTruthy cv = false →
        whileLoopAux ev (n + 1) c b cv s = .ok (.vBool false) .tBool s)
    ∧ (∀ (ev : Expr → State → Outcome) (n : Nat) (c b : Expr) (cv : Value) (s : State),
        pyTruthy cv = true →
        whileLoopAux ev (n + 1) c b cv s =
          (ev b s).bind fun _ _ s1 =>
            (ev c s1).bind fun cv2 _ s2 => whileLoopAux ev n c b cv2 s2) := by
  refine ⟨?_, ?_, ?_⟩
  · intro fuel c b s cv ct s1 h hne
    cases ct
    case tBool => exact absurd rfl hne
    all_goals simp only [evaluate, h, Outcome.bind]
  · intro ev n c b cv s h
    simp [whileLoopAux, h]
  · intro ev n c b cv s h
    simp [whileLoopAux, h]

/-- Witness for the amended C2: an Integer-typed initial condition fails
with a Type error; a falsy loop value exits with `(false, Boolean)`; a
truthy loop value runs the body and re-evaluates the condition. -/
theorem while_condition_checked_only_initially_witness :
    evaluate 2 (.whileE (.intLiteral 1) .ren) .emptyState = .err .typeError
    ∧ whileLoopAux (evaluate 1) 1 .ren .ren (.vBool false) .emptyState
        = .ok (.vBool false) .tBool .emptyState
    ∧ whileLoopAux (evaluate 3) 1 (.booleanLiteral false) .ren (.vBool true) .emptyState
        = ((evaluate 3 .ren .emptyState).bind fun _ _ s1 =>
            (evaluate 3 (.booleanLiteral false) s1).bind fun cv2 _ s2 =>
              whileLoopAux (evaluate 3) 0 (.booleanLiteral false) .ren cv2 s2) :=
  ⟨while_condition_checked_only_initially.1 1 _ _ _ _ _ _ rfl (by decide),
   while_condition_checked_only_initially.2.1 _ 0 _ _ _ _ rfl,
   while_condition_checked_only_initially.2.2 _ 0 _ _ _ _ rfl⟩

/-- C3: for an `If` whose condition evaluates to a Boolean, both branches
are evaluated in the fixed order condition, true branch, false branch,
each against the state produced by the previous step; the value and type
come from the branch selected by the condition, and in both cases the
returned state is the one produced after evaluating both branches. -/
theorem if_always_evaluates_both_branches (fuel : Nat) (c tb fb : Expr)
    (s : State) (cv : Value) (s1 : State) (tv : Value) (tt' : Ty) (s2 : State)
    (fv : Value) (ft : Ty) (s3 : State)
    (hc : evaluate fuel c s = .ok cv .tBool s1)
    (ht : evaluate fuel tb s1 = .ok tv tt' s2)
    (hf : evaluate fuel fb s2 = .ok fv ft s3) :
    evaluate (fuel + 1) (.ifE c tb fb) s =
      if pyEq cv (.vBool true) then .ok tv tt' s3 else .ok fv ft s3 := by
  simp only [evaluate, hc, Outcome.bind, ht, hf]

/-- Witness for C3: a true condition returns the true branch's value, yet
the final state contains the false branch's assignment as well. -/
theorem if_always_evaluates_both_branches_witness :
    evaluate 6 (.ifE (.booleanLiteral true)
        (.assign "a" (.intLiteral 1)) (.assign "b" (.intLiteral 2))) .emptyState
      = (if pyEq (.vBool true) (.vBool true) then
          Outcome.ok (.vInt 1) .tInt
            (.frame "b" (.vInt 2) .tInt (.frame "a" (.vInt 1) .tInt .emptyState))
        else
          Outcome.ok (.vInt 2) .tInt
            (.frame "b" (.vInt 2) .tInt (.frame "a" (.vInt 1) .tInt .emptyState))) :=
  if_always_evaluates_both_branches 5 _ _ _ _ _ _ _ _ _ _ _ _ rfl rfl rfl

/-- C4: every binary operator node evaluates its left operand against the
incoming state, then its right operand against the state returned by the
left evaluation, and only then runs the per-operator tail (`binCompute`)
on both results and the state threaded out of the right operand. Errors
(and fuel exhaustion) of either operand propagate through `Outcome.bind`,
so evaluation is left-to-right and non-short-circuiting for all twelve
operators, including `And` and `Or`. -/
theorem binary_operators_evaluate_left_then_right (op : BinOp) (fuel : Nat)
    (left right : Expr) (state : State) :
    evaluate (fuel + 1) (binExpr op left right) state =
      (evaluate fuel left state).bind fun lv lt' s1 =>
        (evaluate fuel right s1).bind fun rv rt s2 =>
          binCompute op lv lt' rv rt s2 := by
  cases op <;> rfl

/-- C5: `Assign` evaluates the value expression against the incoming
state, looks the name up in the post-evaluation state, fails with a Type
error exactly when a prior binding exists with a different type, and
otherwise extends the post-evaluation state with the new binding; an
unbound name never fails on type grounds. -/
theorem assign_type_checks_in_post_eval_state (fuel : Nat) (x : String)
    (e : Expr) (s : State) (v : Value) (vt : Ty) (s1 : State)
    (h : evaluate fuel e s = .ok v vt s1) :
    evaluate (fuel + 1) (.assign x e) s =
      match s1.get_value x with
      | some (_, pt) =>
        if vt ≠ pt then .err .typeError
        else .ok v vt (s1.set_value x v vt)
      | none => .ok v vt (s1.set_value x v vt) := by
  simp only [evaluate, h, Outcome.bind]

/-- Witness for C5: a first assignment to the fresh name `x` succeeds and
extends the state. -/
theorem assign_type_checks_in_post_eval_state_witness :
    evaluate 2 (.assign "x" (.intLiteral 5)) .emptyState =
      (match State.get_value .emptyState "x" with
       | some (_, pt) =>
         if Ty.tInt ≠ pt then .err .typeError
         else .ok (.vInt 5) .tInt (State.set_value .emptyState "x" (.vInt 5) .tInt)
       | none => .ok (.vInt 5) .tInt (State.set_value .emptyState "x" (.vInt 5) .tInt)) :=
  assign_type_checks_in_post_eval_state 1 "x" (.intLiteral 5) .emptyState
    (.vInt 5) .tInt .emptyState rfl

/-- C6: when both operands evaluate to the Unit type, `Eq`, `Lte` and
`Gte` return true and `Lt`, `Gt` and `Ne` return false, with result type
Boolean in every case. -/
theorem unit_relational_operator_results (fuel : Nat) (l r : Expr)
    (s : State) (lv rv : Value) (s1 s2 : State)
    (hl : evaluate fuel l s = .ok lv .tUnit s1)
    (hr : evaluate fuel r s1 = .ok rv .tUnit s2) :
    evaluate (fuel + 1) (.eq l r) s = .ok (.vBool true) .tBool s2
    ∧ evaluate (fuel + 1) (.lte l r) s = .ok (.vBool true) .tBool s2
    ∧ evaluate (fuel + 1) (.gte l r) s = .ok (.vBool true) .tBool s2
    ∧ evaluate (fuel + 1) (.lt l r) s = .ok (.vBool false) .tBool s2
    ∧ evaluate (fuel + 1) (.gt l r) s = .ok (.vBool false) .tBool s2
    ∧ evaluate (fuel + 1) (.ne l r) s = .ok (.vBool false) .tBool s2 := by
  refine ⟨?_, ?_, ?_, ?_, ?_, ?_⟩ <;> simp [evaluate, hl, hr, Outcome.bind]

/-- Witness for C6: the six relational operators applied to two unit
(`Ren`) literals. -/
theorem unit_relational_operator_results_witness :
    evaluate 2 (.eq .ren .ren) .emptyState = .ok (.vBool true) .tBool .emptyState
    ∧ evaluate 2 (.lte .ren .ren) .emptyState = .ok (.vBool true) .tBool .emptyState
    ∧ evaluate 2 (.gte .ren .ren) .emptyState = .ok (.vBool true) .tBool .emptyState
    ∧ evaluate 2 (.lt .ren .ren) .emptyState = .ok (.vBool false) .tBool .emptyState
    ∧ evaluate 2 (.gt .ren .ren) .emptyState = .ok (.vBool false) .tBool .emptyState
    ∧ evaluate 2 (.ne .ren .ren) .emptyState = .ok (.vBool false) .tBool .emptyState :=
  unit_relational_operator_results 1 _ _ _ _ _ _ _ rfl rfl

/-- C7: evaluating a `Variable` fails with a Syntax error exactly when the
name is unbound — it never returns a default value — and otherwise returns
the bound value and type with the state unchanged, whatever the bound
value is. -/
theorem variable_lookup_never_defaults (fuel : Nat) (x : String) (s : State) :
    (s.get_value x = none → evaluate (fuel + 1) (.var x) s = .err .syntaxError)
    ∧ ∀ (v : Value) (t : Ty), s.get_value x = some (v, t) →
        evaluate (fuel + 1) (.var x) s = .ok v t s := by
  constructor
  · intro h
    simp [evaluate, h]
  · intro v t h
    simp [evaluate, h]

/-- Witness for C7: in a state binding only `y` (to the falsy Boolean
false), reading `x` is a Syntax error while reading `y` returns the falsy
binding with the state unchanged. -/
theorem variable_lookup_never_defaults_witness :
    evaluate 2 (.var "x") (.frame "y" (.vBool false) .tBool .emptyState)
      = .err .syntaxError
    ∧ evaluate 2 (.var "y") (.frame "y" (.vBool false) .tBool .emptyState)
        = .ok (.vBool false) .tBool (.frame "y" (.vBool false) .tBool .emptyState) :=
  ⟨(variable_lookup_never_defaults 1 "x" _).1 rfl,
   (variable_lookup_never_defaults 1 "y" _).2 _ _ rfl⟩

/-- C8: `Divide` on two Integers with non-zero divisor returns the floor
of the exact quotient (floor convention, negative operands included); on
two FloatingPoints with non-zero divisor it returns true division. -/
theorem divide_integer_floor_float_true_division (fuel : Nat) (l r : Expr)
    (s s1 s2 : State) :
    (∀ a b : ℤ, evaluate fuel l s = .ok (.vInt a) .tInt s1 →
        evaluate fuel r s1 = .ok (.vInt b) .tInt s2 → b ≠ 0 →
        evaluate (fuel + 1) (.divide l r) s
          = .ok (.vInt ⌊(a : ℚ) / (b : ℚ)⌋) .tInt s2)
    ∧ (∀ x y : ℚ, evaluate fuel l s = .ok (.vFloat x) .tFloat s1 →
        evaluate fuel r s1 = .ok (.vFloat y) .tFloat s2 → y ≠ 0 →
        evaluate (fuel + 1) (.divide l r) s
          = .ok (.vFloat (x / y)) .tFloat s2) := by
  constructor
  · intro a b hl hr hb
    rw [← fdiv_eq_floor_rat a b hb]
    simp [evaluate, hl, hr, Outcome.bind, pyEq, Value.numView, Value.intView,
      pyFloorDiv, hb]
  · intro x y hl hr hy
    simp [evaluate, hl, hr, Outcome.bind, pyEq, Value.numView, pyTrueDiv, hy]

/-- Witness for C8: `7 / 2` on Integers is 3, `-7 / 2` is -4 (floor, not
truncation), and `7.0 / 2.0` on FloatingPoints is 3.5. -/
theorem divide_integer_floor_float_true_division_witness :
    evaluate 2 (.divide (.intLiteral 7) (.intLiteral 2)) .emptyState
      = .ok (.vInt 3) .tInt .emptyState
    ∧ evaluate 2 (.divide (.intLiteral (-7)) (.intLiteral 2)) .emptyState
      = .ok (.vInt (-4)) .tInt .emptyState
    ∧ evaluate 2 (.divide (.floatingPointLiteral 7) (.floatingPointLiteral 2)) .emptyState
      = .ok (.vFloat (7 / 2)) .tFloat .emptyState := by
  refine ⟨?_, ?_, ?_⟩
  · have h := (divide_integer_floor_float_true_division 1 (.intLiteral 7)
      (.intLiteral 2) .emptyState .emptyState .emptyState).1 7 2 rfl rfl (by decide)
    rw [h]
    norm_num
  · have h := (divide_integer_floor_float_true_division 1 (.intLiteral (-7))
      (.intLiteral 2) .emptyState .emptyState .emptyState).1 (-7) 2 rfl rfl (by decide)
    rw [h]
    norm_num
  · exact (divide_integer_floor_float_true_division 1 (.floatingPointLiteral 7)
      (.floatingPointLiteral 2) .emptyState .emptyState .emptyState).2 7 2 rfl rfl
      (by norm_num)

/-- C9: extending a state never alters the existing chain. After any
sequence of assignments to one name, every historical binding is still
present in the chain, in front of the original state's bindings, and
lookup returns the value and type of the most recent assignment. -/
theorem state_extension_preserves_all_bindings (s : State) (x : String)
    (l : List (Value × Ty)) :
    (assignChain s x l).bindings
        = (l.map fun p => (x, p.1, p.2)).reverse ++ s.bindings
    ∧ ∀ (v : Value) (t : Ty),
        (assignChain s x (l ++ [(v, t)])).get_value x = some (v, t) := by
  induction l generalizing s with
  | nil =>
    refine ⟨by simp [assignChain], ?_⟩
    intro v t
    simp [assignChain, State.set_value, State.get_value]
  | cons p rest ih =>
    obtain ⟨p1, p2⟩ := p
    refine ⟨?_, ?_⟩
    · have e : assignChain s x ((p1, p2) :: rest)
          = assignChain (s.set_value x p1 p2) x rest := rfl
      rw [e, (ih (s.set_value x p1 p2)).1]
      simp [State.set_value, State.bindings]
    · intro v t
      exact (ih (s.set_value x p1 p2)).2 v t

/-- C10: a `Divide` whose right operand evaluates to the Boolean value
false fails with a Math error, not a Type error: the zero check uses
Python equality, under which `False == 0`, and it runs before any type
validation. -/
theorem divide_by_false_raises_math_error (fuel : Nat) (l r : Expr)
    (s : State) (lv : Value) (lt' : Ty) (s1 s2 : State)
    (hl : evaluate fuel l s = .ok lv lt' s1)
    (hr : evaluate fuel r s1 = .ok (.vBool false) .tBool s2) :
    evaluate (fuel + 1) (.divide l r) s = .err .mathError := by
  simp only [evaluate, hl, Outcome.bind, hr]
  rfl

/-- Witness for C10: Integer 1 divided by Boolean false is a Math error
even though Boolean is not a valid Divide operand type. -/
theorem divide_by_false_raises_math_error_witness :
    evaluate 2 (.divide (.intLiteral 1) (.booleanLiteral false)) .emptyState
      = .err .mathError :=
  divide_by_false_raises_math_error 1 _ _ _ _ _ _ _ rfl rfl

end Stimpl
